import Mathlib

/-!
Verification of the network-stability-monitor core (src/nsm.py) against its
specification.  The Python source is shallowly embedded: the fast DNS probe's
try/except, the deep_check threshold rule, the website_alive bounded HEAD
check, the outage state handling of main's loop body, and the end-of-iteration
pacing are translated into executable Lean definitions.  Timestamps and the
threshold fraction are modelled as rationals.
-/

namespace NSM

/-- The resolution errors dns_client.resolve can raise in the fast probe
(src/nsm.py lines 89 to 98).  lifetimeTimeout stands for
dns.resolver.LifetimeTimeout (the alias for resolver/lifetime timeouts),
noNameservers for dns.resolver.NoNameservers; nxdomain, noAnswer and
otherResolutionError stand for the remaining dns.resolver exception classes
(NXDOMAIN, NoAnswer, other DNSException subclasses). -/
inductive DnsResolutionError where
  | lifetimeTimeout
  | noNameservers
  | nxdomain
  | noAnswer
  | otherResolutionError
deriving DecidableEq, Repr

/-- The try/except around dns_client.resolve in main (src/nsm.py lines 89
to 99).  Input: the outcome of the underlying resolve call, either an answer
(modelled as its list of A records; truthiness of the Answer object is
non-emptiness) or a raised resolution error.  Only LifetimeTimeout and
NoNameservers are caught, setting answer = None so that the subsequent
`if not answer` treats the iteration as a probe failure (.ok false).  Any
other exception propagates out of the loop (.error e). -/
def fast_probe (r : Except DnsResolutionError (List String)) :
    Except DnsResolutionError Bool :=
  match r with
  | .ok answer => .ok (!answer.isEmpty)
  | .error .lifetimeTimeout => .ok false
  | .error .noNameservers => .ok false
  | .error e => .error e

/-- The outcome of one deep_check invocation: its two counters and the
returned verdict (src/nsm.py lines 155 to 180; the spec names this record
DeepCheckOutcome). -/
structure DeepCheckOutcome where
  totalChecks : ℕ
  failures : ℕ
  isOutage : Bool
deriving DecidableEq, Repr

/-- deep_check (src/nsm.py lines 155 to 180), parametrised by the per-target
probe results: ping_result t is what `ping(t, config.TIMEOUT)` returns for
ICMP target t, and web_result u is what `website_alive(u, config.TIMEOUT)`
returns for web target u.  number_total_checks_made is the sum of the two
target-list lengths, number_failures counts the probes returning false over
both loops, and the returned verdict is the strict comparison
`number_failures > number_total_checks_made * config.OUTAGE_THRESHOLD`. -/
def deep_check {α β : Type} (icmp_targets : List α) (web_targets : List β)
    (ping_result : α → Bool) (web_result : β → Bool) (threshold : ℚ) :
    DeepCheckOutcome :=
  let number_total_checks_made := icmp_targets.length + web_targets.length
  let number_failures :=
    icmp_targets.countP (fun t => !(ping_result t))
      + web_targets.countP (fun t => !(web_result t))
  { totalChecks := number_total_checks_made
    failures := number_failures
    isOutage :=
      decide ((number_failures : ℚ) > (number_total_checks_made : ℚ) * threshold) }

/-- What website_alive_helper (src/nsm.py lines 231 to 245) puts on the
queue: False when session.head raised any exception, otherwise the response
object, of which the caller inspects the truthiness (in the requests
library, Response.__bool__ is self.ok, i.e. status_code < 400) and the
headers collection. -/
inductive QueueItem where
  | exceptionFalse
  | response (status_code : ℕ) (headers : List (String × String))
deriving DecidableEq

/-- website_alive (src/nsm.py lines 204 to 228) after the worker process has
been joined.  timed_out is `process.is_alive()` after `process.join(timeout)`:
if true the process is terminated and the probe fails.  Otherwise the queue
item is fetched and `response and response.headers` is returned: Python
`and` yields the response when it is falsy (a queued False, or a requests
Response with status_code >= 400, since Response truthiness is ok =
status_code < 400) and the headers otherwise, so as a boolean the result is
true iff the response is truthy (status_code < 400) and its headers
collection is non-empty. -/
def website_alive (timed_out : Bool) (item : QueueItem) : Bool :=
  if timed_out then false
  else
    match item with
    | .exceptionFalse => false
    | .response status_code headers =>
        decide (status_code < 400) && !headers.isEmpty

/-- The mutable state of main's monitoring loop (src/nsm.py lines 74 to 75):
start_of_failure is None while no outage is active and the outage start
timestamp while one is; last_success is the timestamp of the last successful
fast probe. -/
structure LoopState where
  start_of_failure : Option ℚ
  last_success : Option ℚ
deriving DecidableEq, Repr

/-- The initial loop state (both variables start as None). -/
def initialState : LoopState := { start_of_failure := none, last_success := none }

/-- The observation driving one iteration: either the fast probe succeeded,
or it failed and deep_check (run only in that case) returned the given
verdict. -/
inductive Obs where
  | probeOk
  | probeFailed (deepConfirms : Bool)
deriving DecidableEq, Repr

/-- The transition events the loop logs (src/nsm.py lines 99 to 122):
outageBegan carries the recorded start timestamp, outageEnded the reported
outage duration. -/
inductive Event where
  | outageBegan (startedAt : ℚ)
  | outageContinues
  | falseAlarm
  | outageEnded (duration : ℚ)
  | heartbeat
deriving DecidableEq, Repr

/-- One iteration of the loop body acting on the outage state (src/nsm.py
lines 99 to 122), with now the value of time.time() in this iteration.
Probe failure with deep_check confirming: keep an existing start_of_failure
(outage continues) or record now as the new one (new outage).  Probe failure
without confirmation: state untouched (false alarm; the comment in the
source says an active outage is deliberately not reset).  Probe success:
last_success = now, an active outage reports duration now minus
start_of_failure, and start_of_failure is set to None. -/
def step (s : LoopState) (o : Obs) (now : ℚ) : LoopState × Event :=
  match o with
  | .probeFailed deepConfirms =>
      if deepConfirms then
        match s.start_of_failure with
        | some _ => (s, .outageContinues)
        | none => ({ s with start_of_failure := some now }, .outageBegan now)
      else
        (s, .falseAlarm)
  | .probeOk =>
      match s.start_of_failure with
      | some t0 =>
          ({ start_of_failure := none, last_success := some now },
            .outageEnded (now - t0))
      | none =>
          ({ start_of_failure := none, last_success := some now }, .heartbeat)

/-- Iterated loop body over a list of (observation, timestamp) pairs,
collecting the emitted events in order. -/
def run (s : LoopState) : List (Obs × ℚ) → LoopState × List Event
  | [] => (s, [])
  | (o, now) :: rest =>
      let r := step s o now
      let rr := run r.1 rest
      (rr.1, r.2 :: rr.2)

/-- Whether an outage is open after an event trace, starting from openness b:
outageBegan opens, outageEnded closes, other events leave it as is. -/
def openAfter : Bool → List Event → Bool
  | b, [] => b
  | _, .outageBegan _ :: rest => openAfter true rest
  | _, .outageEnded _ :: rest => openAfter false rest
  | b, _ :: rest => openAfter b rest

/-- Checks, starting from openness b, that every outageEnded event in the
trace occurs while an outage opened by a prior outageBegan is still open. -/
def endedOnlyWhenOpen : Bool → List Event → Bool
  | _, [] => true
  | _, .outageBegan _ :: rest => endedOnlyWhenOpen true rest
  | b, .outageEnded _ :: rest => b && endedOnlyWhenOpen false rest
  | b, _ :: rest => endedOnlyWhenOpen b rest

/-- The end-of-iteration pacing of main (src/nsm.py lines 128 to 133):
if the iteration took less than the monitoring interval, sleep for the
remainder; otherwise do not sleep at all. -/
def pacing_sleep_seconds (time_taken monitoring_interval : ℚ) : ℚ :=
  if time_taken < monitoring_interval then monitoring_interval - time_taken
  else 0

/-- Claim C1: for every number of failures f, total check count n and
threshold t realisable by deep_check, the verdict is an outage iff
f > n * t with strict greater-than; in particular with t = 1/4 and n = 10
checks, 2 failures give no outage, 3 failures give an outage, and an exact
tie (1 failure out of 4 at t = 1/4) gives no outage. -/
theorem deep_check_outage_iff_strict :
    (∀ (α β : Type) (icmp : List α) (web : List β)
      (pr : α → Bool) (wr : β → Bool) (t : ℚ),
      ((deep_check icmp web pr wr t).isOutage = true ↔
        ((deep_check icmp web pr wr t).failures : ℚ) >
          ((deep_check icmp web pr wr t).totalChecks : ℚ) * t)) ∧
    (deep_check [false, false, true, true, true] [true, true, true, true, true]
      id id (1/4)).isOutage = false ∧
    (deep_check [false, false, false, true, true] [true, true, true, true, true]
      id id (1/4)).isOutage = true ∧
    (deep_check [false, true, true, true] ([] : List Bool)
      id id (1/4)).isOutage = false := by
  refine ⟨?_, by norm_num [deep_check], by norm_num [deep_check],
    by norm_num [deep_check]⟩
  intro α β icmp web pr wr t
  simp [deep_check]

/-- Claim C2 counterexample: an NXDOMAIN resolution error is not folded into
a probe failure; fast_probe re-raises it instead of returning false, so the
monitoring loop terminates on it. -/
theorem fast_probe_nxdomain_raises :
    fast_probe (.error .nxdomain) = .error .nxdomain ∧
      fast_probe (.error .nxdomain) ≠ .ok false := by
  refine ⟨rfl, ?_⟩
  simp [fast_probe]

/-- Claim C2 amended: only resolver timeout / lifetime-exceeded
(LifetimeTimeout) and no-nameservers errors are caught by the fast probe and
returned as failure; every other resolution error (non-existent domain,
empty answer, any other DNS exception) propagates out of the probe and
terminates the monitoring loop. -/
theorem fast_probe_catches_exactly_timeout_and_nonameservers :
    ∀ e : DnsResolutionError,
      fast_probe (.error e) =
        if e = .lifetimeTimeout ∨ e = .noNameservers then .ok false
        else .error e := by
  intro e
  cases e <;> rfl

/-- Claim C3: an iteration whose fast probe fails without deep_check
confirming leaves the loop state completely unchanged (only a false-alarm
event is logged), an active outage keeps its original start timestamp under
any failed-probe iteration whether confirmed or not, and a step that ends up
with no active outage either started with none or had a successful fast
probe. -/
theorem false_alarm_frame :
    (∀ (s : LoopState) (now : ℚ),
      step s (.probeFailed false) now = (s, .falseAlarm)) ∧
    (∀ (t0 : ℚ) (ls : Option ℚ) (d : Bool) (now : ℚ),
      ((step { start_of_failure := some t0, last_success := ls }
          (.probeFailed d) now).1).start_of_failure = some t0) ∧
    (∀ (s : LoopState) (o : Obs) (now : ℚ),
      ((step s o now).1).start_of_failure = none →
        s.start_of_failure = none ∨ o = .probeOk) := by
  refine ⟨fun s now => rfl, fun t0 ls d now => by cases d <;> rfl, ?_⟩
  intro s o now h
  cases o with
  | probeOk => exact Or.inr rfl
  | probeFailed d =>
      left
      cases d with
      | false => simpa [step] using h
      | true =>
          cases hs : s.start_of_failure with
          | none => rfl
          | some t0 => simp [step, hs] at h

/-- Claim C3 witness: instantiating the frame property at a concrete active
outage (started at 3) and a concrete false-alarm iteration at time 7, and
its ending clause at a concrete recovering iteration. -/
theorem false_alarm_frame_witness :
    step { start_of_failure := some 3, last_success := none }
        (.probeFailed false) 7 =
      ({ start_of_failure := some 3, last_success := none }, .falseAlarm) ∧
    ((step { start_of_failure := some 3, last_success := none }
        (.probeFailed true) 7).1).start_of_failure = some 3 ∧
    (({ start_of_failure := some 3, last_success := none } :
        LoopState).start_of_failure = none ∨ Obs.probeOk = Obs.probeOk) :=
  ⟨false_alarm_frame.1 { start_of_failure := some 3, last_success := none } 7,
    false_alarm_frame.2.1 3 none true 7,
    false_alarm_frame.2.2 { start_of_failure := some 3, last_success := none }
      .probeOk 7 rfl⟩

/-- Claim C4: a successful fast probe during an active outage started at t0
emits outage-ended with duration now - t0 and clears the state; and in
Scenario B (confirmed at time 0, re-confirmed at time 5, recovered at
time 12) the start timestamp survives the re-confirmation unchanged and the
reported duration is 12. -/
theorem recovery_reports_duration :
    (∀ (t0 : ℚ) (ls : Option ℚ) (now : ℚ),
      step { start_of_failure := some t0, last_success := ls } .probeOk now =
        ({ start_of_failure := none, last_success := some now },
          .outageEnded (now - t0))) ∧
    run initialState
        [(.probeFailed true, 0), (.probeFailed true, 5), (.probeOk, 12)] =
      ({ start_of_failure := none, last_success := some 12 },
        [.outageBegan 0, .outageContinues, .outageEnded 12]) := by
  refine ⟨fun t0 ls now => rfl, ?_⟩
  simp [run, step, initialState]

theorem run_open_invariant : ∀ (inputs : List (Obs × ℚ)) (s : LoopState),
    ((run s inputs).1).start_of_failure.isSome
      = openAfter s.start_of_failure.isSome (run s inputs).2
  | [], s => by simp [run, openAfter]
  | (o, now) :: rest, s => by
      cases o with
      | probeOk =>
          cases hs : s.start_of_failure with
          | none =>
              have h := run_open_invariant rest
                { start_of_failure := none, last_success := some now }
              simpa [run, step, hs, openAfter] using h
          | some t0 =>
              have h := run_open_invariant rest
                { start_of_failure := none, last_success := some now }
              simpa [run, step, hs, openAfter] using h
      | probeFailed d =>
          cases d with
          | false =>
              have h := run_open_invariant rest s
              simpa [run, step, openAfter] using h
          | true =>
              cases hs : s.start_of_failure with
              | none =>
                  have h := run_open_invariant rest
                    { s with start_of_failure := some now }
                  simpa [run, step, hs, openAfter] using h
              | some t0 =>
                  have h := run_open_invariant rest s
                  simpa [run, step, hs, openAfter] using h

theorem run_ended_only_when_open : ∀ (inputs : List (Obs × ℚ)) (s : LoopState),
    endedOnlyWhenOpen s.start_of_failure.isSome (run s inputs).2 = true
  | [], s => by simp [run, endedOnlyWhenOpen]
  | (o, now) :: rest, s => by
      cases o with
      | probeOk =>
          cases hs : s.start_of_failure with
          | none =>
              have h := run_ended_only_when_open rest
                { start_of_failure := none, last_success := some now }
              simpa [run, step, hs, endedOnlyWhenOpen] using h
          | some t0 =>
              have h := run_ended_only_when_open rest
                { start_of_failure := none, last_success := some now }
              simpa [run, step, hs, endedOnlyWhenOpen] using h
      | probeFailed d =>
          cases d with
          | false =>
              have h := run_ended_only_when_open rest s
              simpa [run, step, endedOnlyWhenOpen] using h
          | true =>
              cases hs : s.start_of_failure with
              | none =>
                  have h := run_ended_only_when_open rest
                    { s with start_of_failure := some now }
                  simpa [run, step, hs, endedOnlyWhenOpen] using h
              | some t0 =>
                  have h := run_ended_only_when_open rest s
                  simpa [run, step, hs, endedOnlyWhenOpen] using h

/-- Claim C6: for every iteration with work time w and monitoring interval
itv, the pacing sleeps exactly itv - w when w < itv, does not sleep at all
when w is at least itv, and never computes a negative sleep. -/
theorem loop_pacing (w itv : ℚ) :
    (w < itv → pacing_sleep_seconds w itv = itv - w) ∧
    (itv ≤ w → pacing_sleep_seconds w itv = 0) ∧
    0 ≤ pacing_sleep_seconds w itv := by
  refine ⟨fun h => by simp [pacing_sleep_seconds, h], fun h => ?_, ?_⟩
  · simp [pacing_sleep_seconds, not_lt.mpr h]
  · by_cases h : w < itv
    · simp only [pacing_sleep_seconds, if_pos h]
      linarith
    · simp [pacing_sleep_seconds, h]

/-- Claim C6 witness: work of 3/10 against interval 1 sleeps 7/10; work of
7/5 against interval 1 does not sleep. -/
theorem loop_pacing_witness :
    pacing_sleep_seconds (3/10) 1 = 7/10 ∧ pacing_sleep_seconds (7/5) 1 = 0 := by
  constructor
  · have h := (loop_pacing (3/10) 1).1 (by norm_num)
    rw [h]
    norm_num
  · exact (loop_pacing (7/5) 1).2.1 (by norm_num)

/-- Claim C7: after any sequence of iterations from the initial state, the
outage start timestamp is set if and only if an outage is active, where
active means an emitted outage-began event is still open (not yet closed by
an outage-ended event). -/
theorem started_at_iff_outage_active (inputs : List (Obs × ℚ)) :
    ((run initialState inputs).1).start_of_failure.isSome
      = openAfter false (run initialState inputs).2 := by
  simpa [initialState] using run_open_invariant inputs initialState

/-- Claim C9: after any sequence of iterations from the initial state, every
outage-ended event in the emitted trace closes a currently open outage-began
event: none is emitted without a prior unclosed outage-began. -/
theorem ended_only_closes_open_began (inputs : List (Obs × ℚ)) :
    endedOnlyWhenOpen false (run initialState inputs).2 = true := by
  simpa [initialState] using run_ended_only_when_open inputs initialState

/-- Claim C8: the DeepCheckOutcome (totalChecks, failures and the verdict)
is invariant under any permutation of the order in which the ICMP targets
and the web targets are probed. -/
theorem deep_check_perm_invariant {α β : Type} {icmp icmp2 : List α}
    {web web2 : List β} (pr : α → Bool) (wr : β → Bool) (t : ℚ)
    (h1 : icmp.Perm icmp2) (h2 : web.Perm web2) :
    deep_check icmp web pr wr t = deep_check icmp2 web2 pr wr t := by
  simp [deep_check, h1.length_eq, h2.length_eq,
    List.Perm.countP_eq (fun x => !(pr x)) h1,
    List.Perm.countP_eq (fun x => !(wr x)) h2]

/-- Claim C8 witness: swapping the two ICMP targets and the two web targets
leaves the deep-check outcome unchanged at a concrete result assignment. -/
theorem deep_check_perm_invariant_witness :
    deep_check [true, false] [false, true] id id (1/4)
      = deep_check [false, true] [true, false] id id (1/4) :=
  deep_check_perm_invariant id id (1/4)
    (List.Perm.swap false true []) (List.Perm.swap true false [])

/-- Claim C10: a HEAD check that completes within the timeout succeeds only
if the obtained response has a non-empty headers collection; a response that
arrives in time with empty headers counts as failure whatever its status
code, exactly like a worker that reported an exception.  (Non-empty headers
alone do not suffice: the response must also be truthy, status_code < 400.) -/
theorem website_alive_needs_headers :
    (∀ (status_code : ℕ) (headers : List (String × String)),
      website_alive false (.response status_code headers) = true →
        headers ≠ []) ∧
    (∀ status_code : ℕ,
      website_alive false (.response status_code []) = false) ∧
    website_alive false .exceptionFalse = false := by
  refine ⟨?_, fun status_code => by simp [website_alive], rfl⟩
  intro status_code headers h
  cases headers with
  | nil => simp [website_alive] at h
  | cons a rest => simp

/-- Claim C10 witness: a timely 200 response with a one-entry headers
collection succeeds and indeed has non-empty headers; a timely 200 response
with empty headers fails. -/
theorem website_alive_needs_headers_witness :
    ([("Content-Type", "text/html")] : List (String × String)) ≠ [] ∧
    website_alive false (.response 200 []) = false :=
  ⟨website_alive_needs_headers.1 200 [("Content-Type", "text/html")] (by rfl),
    website_alive_needs_headers.2.1 200⟩

end NSM
